import Mathlib

/-!
# Sensor node client (`client.c`): embedding and verified properties

A shallow embedding of the Contiki sensor-node client: the reply decoder
`udp_rx_callback`, the two sampling protothreads `read_temp` and
`read_humidity`, and the body of one transmission cycle of the process
`transmitting_sensor_data`.

Conventions.
* `uint32_t` counters are natural numbers, every `++` is taken modulo `2^32`.
* `int` is the 32-bit two's-complement integer. It is carried either as an
  `Int` wrapped by `wrapInt32`, or (inside the bitwise loop of the decoder)
  as its bit pattern, a natural number below `2^32`, read back by `toInt32`.
* The collaborators that are not part of the program (routing, sensor driver,
  event timers, the random generator, `CLOCK_SECOND`) appear as arguments.
* Everything the program prints or hands to a collaborator is recorded, in
  order, as a list of `Event`s.
-/

namespace SensorNode

/-! ## Machine integers -/

/-- Number of values of a `uint32_t`. -/
def UINT32_MOD : Nat := 2 ^ 32

/-- Largest `int`. -/
def INT_MAX : Int := 2 ^ 31 - 1

/-- Smallest `int`. -/
def INT_MIN : Int := -(2 ^ 31)

/-- The `uint32_t` increment `x++`. -/
def incr32 (x : Nat) : Nat := (x + 1) % UINT32_MOD

/-- Read a 32-bit pattern as a two's-complement `int`. -/
def toInt32 (u : Nat) : Int :=
  if u < 2 ^ 31 then (u : Int) else (u : Int) - 2 ^ 32

/-- Reduce a mathematical integer to the `int` with the same low 32 bits. -/
def wrapInt32 (z : Int) : Int :=
  toInt32 (z % 2 ^ 32).toNat

/-- Bit pattern of `x << n` on `int`, for a non-negative `x`: the product
`x * 2^n` cut to 32 bits. Where the product fits in an `int` this is the value
C defines; the results about defined behaviour only use that case. -/
def shl32 (x n : Nat) : Nat := (x <<< n) % 2 ^ 32

/-! ## Program state -/

/-- Local continuation of a sampling protothread (`pt->lc`): the start of
the body, the wait for the sensor to be ready, or the wait for the cooldown
timer. -/
inductive LC where
  | start
  | waitReady
  | waitCooldown
  deriving DecidableEq, Repr

/-- Result of resuming a protothread. -/
inductive PtResult where
  | waiting
  | ended
  deriving DecidableEq, Repr

/-- An event timer: the interval it was last armed with and whether it has
expired since. -/
structure Etimer where
  interval : Nat
  expired : Bool
  deriving DecidableEq, Repr

/-- The call `etimer_set(&t, interval)`: the timer is armed and not expired. -/
def etimer_set (interval : Nat) : Etimer :=
  { interval := interval, expired := false }

/-- The call `etimer_expired(&t)`. -/
def etimer_expired (t : Etimer) : Bool := t.expired

/-- Observable actions, in program order. -/
inductive Event where
  /-- The macro call `SENSORS_ACTIVATE(sht11_sensor)`. -/
  | activate
  /-- The macro call `SENSORS_DEACTIVATE(sht11_sensor)`. -/
  | deactivate
  /-- A call of `sht11_sensor.value` for the temperature. -/
  | readTemp
  /-- A call of `sht11_sensor.value` for the humidity. -/
  | readHumidity
  /-- The line `Temperature: %d C`. -/
  | printTemp (v : Int)
  /-- The line `Humidity: %d %%`. -/
  | printHumidity (v : Int)
  /-- An `etimer_set` on the temperature timer. -/
  | setTempTimer (interval : Nat)
  /-- An `etimer_set` on the humidity timer. -/
  | setHumidTimer (interval : Nat)
  /-- The line `Tx/Rx/MissedTx: tx/rx/missed`. -/
  | stats (tx rx missed : Nat)
  /-- The line `Sending Data to: <address>`. -/
  | logSending
  /-- The call `simple_udp_sendto` with the 4-byte payload. -/
  | sendto (payload : Int)
  /-- The line `Not reachable yet`. -/
  | logNotReachable
  /-- The line `Received response '%d' from <address>`. -/
  | logReceived (v : Int)
  deriving DecidableEq, Repr

/-- The static variables of `client.c`. -/
structure State where
  tx_count : Nat
  rx_count : Nat
  missed_tx_count : Nat
  display_temp : Int
  display_humidity : Int
  pt_temp_thread : LC
  pt_humidity_thread : LC
  et_temp_timer : Etimer
  et_humid_timer : Etimer
  periodic_timer : Etimer
  deriving DecidableEq, Repr

/-- State after `PT_INIT` of both protothreads with zeroed statics. -/
def State.init : State :=
  { tx_count := 0, rx_count := 0, missed_tx_count := 0,
    display_temp := 0, display_humidity := 0,
    pt_temp_thread := LC.start, pt_humidity_thread := LC.start,
    et_temp_timer := ⟨0, false⟩, et_humid_timer := ⟨0, false⟩,
    periodic_timer := ⟨0, false⟩ }

/-! ## Reply decoder: `udp_rx_callback` -/

/-- The loop `for(i = 0; i < datalen; i++) received_data |= data[i] << (8 * i)`
on the bit pattern of `received_data`, from index `i` on. -/
def rx_loop : List (Fin 256) → Nat → Nat → Nat
  | [], _, acc => acc
  | b :: rest, i, acc => rx_loop rest (i + 1) (acc ||| shl32 b.val (8 * i))

/-- Value of `received_data` after the loop, started from `0`. -/
def received_data (data : List (Fin 256)) : Int :=
  toInt32 (rx_loop data 0 0)

/-- The callback `udp_rx_callback`: decode, log, count. -/
def udp_rx_callback (data : List (Fin 256)) (s : State) : State × List Event :=
  ({ s with rx_count := incr32 s.rx_count }, [Event.logReceived (received_data data)])

/-- Whether every shift `data[i] << (8 * i)` of the loop, from index `i` on,
has a result that C defines: the count is below the width of `int` and the
product `data[i] * 2^(8 * i)` fits in an `int`. -/
def shifts_defined : List (Fin 256) → Nat → Bool
  | [], _ => true
  | b :: rest, i =>
    decide (8 * i < 32) && decide (b.val * 2 ^ (8 * i) < 2 ^ 31) && shifts_defined rest (i + 1)

/-- Little-endian value of a byte sequence: the sum of `data[i] * 256^i`. -/
def leValue : List (Fin 256) → Nat
  | [] => 0
  | b :: rest => b.val + 256 * leValue rest

/-! ## Transmission cycle of `transmitting_sensor_data` -/

/-- The macro `SEND_INTERVAL`. -/
def SEND_INTERVAL (CLOCK_SECOND : Nat) : Nat := 5 * CLOCK_SECOND

/-- The payload `data_to_send = display_temp * 100 + display_humidity`. -/
def data_to_send (display_temp display_humidity : Int) : Int :=
  wrapInt32 (display_temp * 100 + display_humidity)

/-- The interval the periodic timer is re-armed with at the end of a cycle. -/
def rearm_interval (CLOCK_SECOND rand : Nat) : Nat :=
  SEND_INTERVAL CLOCK_SECOND - CLOCK_SECOND + rand % (2 * CLOCK_SECOND)

/-- One transmission cycle: the code of the main loop that runs once the
periodic timer has expired, from the routing test to the re-arming of the
timer. `reachable` is the answer of `node_is_reachable`, `rootKnown` the
answer `get_root_ipaddr` gives (it is asked only when `reachable` holds), and
`rand` the value of `random_rand()`. -/
def transmission_cycle (CLOCK_SECOND : Nat) (reachable rootKnown : Bool) (rand : Nat)
    (s : State) : State × List Event :=
  let timer := etimer_set (rearm_interval CLOCK_SECOND rand)
  if reachable && rootKnown then
    let statsLine :=
      if s.tx_count % 10 = 0 then [Event.stats s.tx_count s.rx_count s.missed_tx_count] else []
    ({ s with tx_count := incr32 s.tx_count, periodic_timer := timer },
      statsLine ++ [Event.logSending, Event.sendto (data_to_send s.display_temp s.display_humidity)])
  else
    ({ s with
        missed_tx_count := if s.tx_count > 0 then incr32 s.missed_tx_count else s.missed_tx_count,
        periodic_timer := timer },
      [Event.logNotReachable])

/-- Whether an event is the statistics summary. -/
def Event.isStats : Event → Bool
  | Event.stats _ _ _ => true
  | _ => false

/-- Number of statistics summaries in a trace. -/
def statsCount (tr : List Event) : Nat := tr.countP Event.isStats

/-- Consecutive cycles that all send (reachable, root known); `rands` gives
the value of `random_rand()` of each cycle. Returns the final state and the
trace of each cycle. -/
def sending_cycles (CLOCK_SECOND : Nat) : List Nat → State → State × List (List Event)
  | [], s => (s, [])
  | r :: rs, s =>
    let step := transmission_cycle CLOCK_SECOND true true r s
    let tail := sending_cycles CLOCK_SECOND rs step.1
    (tail.1, step.2 :: tail.2)

/-- Number of cycles of a run in which the statistics summary is emitted. -/
def cyclesWithStats (traces : List (List Event)) : Nat :=
  traces.countP (fun tr => decide (0 < statsCount tr))

/-! ## Sampling protothreads -/

/-- The protothread `read_temp`, resumed once. `calibrate` stands for the
floating-point computation `(int)(float)(-39.60 + raw * 0.01)` (the program's
is `calibrated_temp`), `ready` is the
answer of `sht11_sensor.status(SENSORS_READY)` and `raw` the value of
`sht11_sensor.value(SHT11_SENSOR_TEMP)`, should they be asked. -/
def read_temp (calibrate : Int → Int) (CLOCK_SECOND : Nat) (ready : Bool) (raw : Int)
    (s : State) : State × List Event × PtResult :=
  -- from `PT_WAIT_UNTIL(pt, sht11_sensor.status(SENSORS_READY))` to the end of the body
  let fromReady (s : State) (pre : List Event) : State × List Event × PtResult :=
    if ready then
      let v := calibrate raw
      -- the timer was just set, so the second wait returns `PT_WAITING`
      ({ s with display_temp := v,
                et_temp_timer := etimer_set (CLOCK_SECOND * 5),
                pt_temp_thread := LC.waitCooldown },
        pre ++ [Event.readTemp, Event.printTemp v, Event.deactivate,
                Event.setTempTimer (CLOCK_SECOND * 5)],
        PtResult.waiting)
    else
      ({ s with pt_temp_thread := LC.waitReady }, pre, PtResult.waiting)
  match s.pt_temp_thread with
  | LC.start => fromReady s [Event.activate]
  | LC.waitReady => fromReady s []
  | LC.waitCooldown =>
    if etimer_expired s.et_temp_timer then fromReady s [Event.activate]
    else (s, [], PtResult.waiting)

/-- The protothread `read_humidity`, resumed once. `calibrate` stands for the
floating-point computation of `calculated_humidity` and its cast to `int` (the
program's is `calibrated_humidity`);
`ready` and `raw` are the sensor's answers, should they be asked. -/
def read_humidity (calibrate : Int → Int) (CLOCK_SECOND : Nat) (ready : Bool) (raw : Int)
    (s : State) : State × List Event × PtResult :=
  let fromReady (s : State) (pre : List Event) : State × List Event × PtResult :=
    if ready then
      let v := calibrate raw
      ({ s with display_humidity := v,
                et_humid_timer := etimer_set (CLOCK_SECOND * 5),
                pt_humidity_thread := LC.waitCooldown },
        pre ++ [Event.readHumidity, Event.printHumidity v, Event.deactivate,
                Event.setHumidTimer (CLOCK_SECOND * 5)],
        PtResult.waiting)
    else
      ({ s with pt_humidity_thread := LC.waitReady }, pre, PtResult.waiting)
  match s.pt_humidity_thread with
  | LC.start => fromReady s [Event.activate]
  | LC.waitReady => fromReady s []
  | LC.waitCooldown =>
    if etimer_expired s.et_humid_timer then fromReady s [Event.activate]
    else (s, [], PtResult.waiting)

/-- Number of statistics summaries that `n` consecutive sending cycles emit,
as a function of the `tx_count` they start from: the test `tx_count % 10 == 0`
followed by `tx_count++`, `n` times. -/
def emitCount : Nat → Nat → Nat
  | 0, _ => 0
  | n + 1, t => (if t % 10 = 0 then 1 else 0) + emitCount n (incr32 t)

/-! ## Operations on the counters -/

/-- The operations of the program that touch the statistics counters: one
transmission cycle, or one invocation of `udp_rx_callback`. -/
inductive Op where
  | cycle (CLOCK_SECOND : Nat) (reachable rootKnown : Bool) (rand : Nat)
  | receive (data : List (Fin 256))

/-- State after an operation. -/
def Op.run : Op → State → State
  | Op.cycle cs reachable rootKnown rand, s => (transmission_cycle cs reachable rootKnown rand s).1
  | Op.receive data, s => (udp_rx_callback data s).1

/-- The largest `uint32_t`. -/
def UINT32_MAX : Nat := 2 ^ 32 - 1

/-! ## Floating-point arithmetic of the calibration

`double` is IEEE 754 binary64 and `float` is binary32, every operation is
rounded to nearest, ties to even, on its own. Every finite number of either
format is an integer multiple of `2^(-1074)`, so a number is carried as a sign
and a magnitude counted in that unit. Infinities are left out: for a 32-bit
raw value no result comes near `2^128`. The sign of a zero is not tracked; it
has no effect on the integer that is stored.

The arithmetic is written with the functions of `Nat` themselves (`Nat.add`,
`Nat.shiftLeft`, ...) so that it evaluates quickly. -/

/-- The value `a` when `c` is true and `b` otherwise. -/
def pick (c : Bool) (a b : Nat) : Nat := Bool.rec b a c

/-- Last step of the binary search of `bitLength`, for `0 < n < 4`. -/
def bl1 (n acc : Nat) : Nat := pick (Nat.ble 2 n) (Nat.add acc 1) acc

/-- Step of the binary search of `bitLength`, for `0 < n < 2^4`. -/
def bl2 (n acc : Nat) : Nat :=
  pick (Nat.ble (Nat.shiftLeft 1 2) n) (bl1 (Nat.shiftRight n 2) (Nat.add acc 2)) (bl1 n acc)

/-- Step of the binary search of `bitLength`, for `0 < n < 2^8`. -/
def bl4 (n acc : Nat) : Nat :=
  pick (Nat.ble (Nat.shiftLeft 1 4) n) (bl2 (Nat.shiftRight n 4) (Nat.add acc 4)) (bl2 n acc)

/-- Step of the binary search of `bitLength`, for `0 < n < 2^16`. -/
def bl8 (n acc : Nat) : Nat :=
  pick (Nat.ble (Nat.shiftLeft 1 8) n) (bl4 (Nat.shiftRight n 8) (Nat.add acc 8)) (bl4 n acc)

/-- Step of the binary search of `bitLength`, for `0 < n < 2^32`. -/
def bl16 (n acc : Nat) : Nat :=
  pick (Nat.ble (Nat.shiftLeft 1 16) n) (bl8 (Nat.shiftRight n 16) (Nat.add acc 16)) (bl8 n acc)

/-- Step of the binary search of `bitLength`, for `0 < n < 2^64`. -/
def bl32 (n acc : Nat) : Nat :=
  pick (Nat.ble (Nat.shiftLeft 1 32) n) (bl16 (Nat.shiftRight n 32) (Nat.add acc 32)) (bl16 n acc)

/-- Step of the binary search of `bitLength`, for `0 < n < 2^128`. -/
def bl64 (n acc : Nat) : Nat :=
  pick (Nat.ble (Nat.shiftLeft 1 64) n) (bl32 (Nat.shiftRight n 64) (Nat.add acc 64)) (bl32 n acc)

/-- Step of the binary search of `bitLength`, for `0 < n < 2^256`. -/
def bl128 (n acc : Nat) : Nat :=
  pick (Nat.ble (Nat.shiftLeft 1 128) n) (bl64 (Nat.shiftRight n 128) (Nat.add acc 128)) (bl64 n acc)

/-- Step of the binary search of `bitLength`, for `0 < n < 2^512`. -/
def bl256 (n acc : Nat) : Nat :=
  pick (Nat.ble (Nat.shiftLeft 1 256) n) (bl128 (Nat.shiftRight n 256) (Nat.add acc 256)) (bl128 n acc)

/-- Step of the binary search of `bitLength`, for `0 < n < 2^1024`. -/
def bl512 (n acc : Nat) : Nat :=
  pick (Nat.ble (Nat.shiftLeft 1 512) n) (bl256 (Nat.shiftRight n 512) (Nat.add acc 512)) (bl256 n acc)

/-- Step of the binary search of `bitLength`, for `0 < n < 2^2048`. -/
def bl1024 (n acc : Nat) : Nat :=
  pick (Nat.ble (Nat.shiftLeft 1 1024) n) (bl512 (Nat.shiftRight n 1024) (Nat.add acc 1024)) (bl512 n acc)

/-- Step of the binary search of `bitLength`, for `0 < n < 2^4096`. -/
def bl2048 (n acc : Nat) : Nat :=
  pick (Nat.ble (Nat.shiftLeft 1 2048) n) (bl1024 (Nat.shiftRight n 2048) (Nat.add acc 2048)) (bl1024 n acc)

/-- Step of the binary search of `bitLength`, for `0 < n < 2^8192`. -/
def bl4096 (n acc : Nat) : Nat :=
  pick (Nat.ble (Nat.shiftLeft 1 4096) n) (bl2048 (Nat.shiftRight n 4096) (Nat.add acc 4096)) (bl2048 n acc)

/-- Number of binary digits of `n`: `0` for `0`, and otherwise the `k` with
`2^(k-1) ≤ n < 2^k`. Found by binary search, for `n < 2^8192`, which covers
every sum and every product of two finite `double`s in the unit `2^(-1074)`. -/
def bitLength (n : Nat) : Nat := pick (Nat.beq n 0) 0 (bl4096 n 1)

/-- The quotient `a / 2^s` rounded to nearest, ties to even: the quotient is
raised by one when twice the remainder plus the parity of the quotient
exceeds `2^s`. -/
def roundShift (a s : Nat) : Nat :=
  pick (Nat.ble (Nat.succ (Nat.shiftLeft 1 s))
        (Nat.add (Nat.mul 2 (Nat.sub a (Nat.shiftLeft (Nat.shiftRight a s) s)))
          (Nat.mod (Nat.shiftRight a s) 2)))
    (Nat.add (Nat.shiftRight a s) 1) (Nat.shiftRight a s)

/-- Number of low binary digits of `a` that a format with `p` significant
digits drops, at least `lo`: the larger of `bitLength a - p` and `lo`. -/
def dropCount (p lo a : Nat) : Nat :=
  pick (Nat.ble (Nat.sub (bitLength a) p) lo) lo (Nat.sub (bitLength a) p)

/-- Round the magnitude `a`, counted in the unit `2^(-1074 - extra)`, to `p`
significant binary digits and to a multiple of `2^(lo - extra)` units of
`2^(-1074)`; the result is counted in the unit `2^(-1074)`. -/
def roundUnits (p lo extra a : Nat) : Nat :=
  Nat.shiftLeft (roundShift a (dropCount p lo a)) (Nat.sub (dropCount p lo a) extra)

/-- A finite floating-point number `(-1)^neg * mag * 2^(-1074)`. -/
structure Fp where
  neg : Bool
  mag : Nat
  deriving DecidableEq, Repr

/-- The `double` nearest to the fraction `n / d`, as a magnitude: the
quotient is taken with 65 extra binary digits, the last of which records
whether the division left a remainder. -/
def nearestDouble (n d : Nat) : Nat :=
  roundUnits 53 65 65
    (2 * ((n <<< (1074 + 64)) / d) + (if (n <<< (1074 + 64)) % d = 0 then 0 else 1))

/-- Unary minus. -/
def Fp.negate (x : Fp) : Fp := ⟨!x.neg, x.mag⟩

/-- Conversion of an `int` to `double`. -/
def int_to_double (z : Int) : Fp :=
  ⟨decide (z < 0), roundUnits 53 0 0 (Nat.shiftLeft z.natAbs 1074)⟩

/-- The `double` product `x * y`: the exact product, in the unit `2^(-2148)`,
rounded to 53 digits. -/
def double_mul (x y : Fp) : Fp :=
  ⟨xor x.neg y.neg, roundUnits 53 1074 1074 (Nat.mul x.mag y.mag)⟩

/-- The `double` sum `x + y`: the exact sum rounded to 53 digits. -/
def double_add (x y : Fp) : Fp :=
  if x.neg = y.neg then ⟨x.neg, roundUnits 53 0 0 (Nat.add x.mag y.mag)⟩
  else if Nat.ble y.mag x.mag then ⟨x.neg, roundUnits 53 0 0 (Nat.sub x.mag y.mag)⟩
  else ⟨y.neg, roundUnits 53 0 0 (Nat.sub y.mag x.mag)⟩

/-- Narrowing of a `double` to `float`: 24 digits, multiples of `2^(-149)`. -/
def double_to_float (x : Fp) : Fp := ⟨x.neg, roundUnits 24 925 0 x.mag⟩

/-- The cast `(int)` of a `float`: the fraction is discarded. Where the
result does not fit in an `int` C defines no value; the conversion
instruction of x86 then gives `INT_MIN`, which is what is returned here. -/
def float_to_int (x : Fp) : Int :=
  if Nat.ble 2147483648 (Nat.shiftRight x.mag 1074) then -2147483648
  else if x.neg then Int.negOfNat (Nat.shiftRight x.mag 1074)
  else Int.ofNat (Nat.shiftRight x.mag 1074)

/-- The constant `39.60` as a `double`: `0x1.3cccccccccccdp+5`. -/
def c_39_60 : Fp := ⟨false, Nat.shiftLeft 0x13cccccccccccd (1074 - 47)⟩

/-- The constant `0.01` as a `double`: `0x1.47ae147ae147bp-7`. -/
def c_0_01 : Fp := ⟨false, Nat.shiftLeft 0x147ae147ae147b (1074 - 59)⟩

/-- The constant `2.0468` as a `double`: `0x1.05fd8adab9f56p+1`. -/
def c_2_0468 : Fp := ⟨false, Nat.shiftLeft 0x105fd8adab9f56 (1074 - 51)⟩

/-- The constant `0.0367` as a `double`: `0x1.2ca57a786c227p-5`. -/
def c_0_0367 : Fp := ⟨false, Nat.shiftLeft 0x12ca57a786c227 (1074 - 57)⟩

/-- The constant `1.5955` as a `double`: `0x1.9872b020c49bap+0`. -/
def c_1_5955 : Fp := ⟨false, Nat.shiftLeft 0x19872b020c49ba (1074 - 52)⟩

/-- The value of `pow(10, -6)`, the `double` nearest to `10^(-6)`:
`0x1.0c6f7a0b5ed8dp-20`. -/
def c_pow_10_m6 : Fp := ⟨false, Nat.shiftLeft 0x10c6f7a0b5ed8d (1074 - 72)⟩

/-- The calibration of `read_temp`:
`float calculated_temp = -39.60 + (raw_temp * 0.01); display_temp = (int)calculated_temp`. -/
def calibrated_temp (raw_temp : Int) : Int :=
  float_to_int (double_to_float
    (double_add c_39_60.negate (double_mul (int_to_double raw_temp) c_0_01)))

/-- The calibration of `read_humidity`:
`float calculated_humidity = -2.0468 + 0.0367 * raw_humidity
  + (-1.5955 * pow(10, -6)) * raw_humidity * raw_humidity;
display_humidity = (int)calculated_humidity`. -/
def calibrated_humidity (raw_humidity : Int) : Int :=
  float_to_int (double_to_float
    (double_add
      (double_add c_2_0468.negate (double_mul c_0_0367 (int_to_double raw_humidity)))
      (double_mul
        (double_mul (double_mul c_1_5955.negate c_pow_10_m6) (int_to_double raw_humidity))
        (int_to_double raw_humidity))))

/-! ## The calibration formulas of the specification -/

theorem received_data_two_bytes : received_data [0x39, 0x30] = 0x3039 := by decide

theorem data_to_send_negative_temp : data_to_send (-5) 40 = -460 := by decide

theorem rearm_interval_sky : rearm_interval 128 65535 = 4 * 128 + 255 := by decide

/-! ## Helper lemmas -/

theorem incr32_ne (x : Nat) : incr32 x ≠ x := by
  unfold incr32 UINT32_MOD
  omega

theorem incr32_of_lt (x : Nat) (h : x < 2 ^ 32 - 1) : incr32 x = x + 1 := by
  unfold incr32 UINT32_MOD
  omega

theorem transmission_cycle_send (cs rand : Nat) (s : State) :
    transmission_cycle cs true true rand s =
      ({ s with tx_count := incr32 s.tx_count,
                periodic_timer := etimer_set (rearm_interval cs rand) },
        (if s.tx_count % 10 = 0 then [Event.stats s.tx_count s.rx_count s.missed_tx_count]
          else []) ++
          [Event.logSending, Event.sendto (data_to_send s.display_temp s.display_humidity)]) := by
  simp [transmission_cycle]

/-! ## Transmission counters -/

/-- C1: in a transmission cycle `tx_count` is incremented by one (the
`uint32_t` increment) if and only if `node_is_reachable` holds and
`get_root_ipaddr` succeeds; in every other case it is left unchanged. -/
theorem tx_count_incremented_iff (cs : Nat) (reachable rootKnown : Bool) (rand : Nat)
    (s : State) :
    ((transmission_cycle cs reachable rootKnown rand s).1.tx_count = incr32 s.tx_count
        ↔ (reachable = true ∧ rootKnown = true))
      ∧ (¬ (reachable = true ∧ rootKnown = true) →
          (transmission_cycle cs reachable rootKnown rand s).1.tx_count = s.tx_count)
      ∧ (s.tx_count < 2 ^ 32 - 1 → reachable = true → rootKnown = true →
          (transmission_cycle cs reachable rootKnown rand s).1.tx_count = s.tx_count + 1) := by
  have hne := incr32_ne s.tx_count
  cases reachable <;> cases rootKnown <;>
    simp [transmission_cycle, Ne.symm hne]
  intro h
  exact incr32_of_lt _ h

/-- Witness for C1: from `tx_count = 5` a cycle with both routing answers
positive gives `6`, and a cycle without a root address leaves `5`. -/
theorem tx_count_incremented_iff_witness :
    (transmission_cycle 128 true true 7 { State.init with tx_count := 5 }).1.tx_count = 6
      ∧ (transmission_cycle 128 true false 7 { State.init with tx_count := 5 }).1.tx_count = 5 :=
  ⟨(tx_count_incremented_iff 128 true true 7 { State.init with tx_count := 5 }).2.2
      (by decide) rfl rfl,
   (tx_count_incremented_iff 128 true false 7 { State.init with tx_count := 5 }).2.1
      (by decide)⟩

/-- C2, as stated, fails: with `tx_count = 5`, `missed_tx_count = 0`, the
node reachable but `get_root_ipaddr` failing, `missed_tx_count` becomes `1`
although reachability is true. -/
theorem missed_count_reachable_counterexample :
    (transmission_cycle 128 true false 7
        { State.init with tx_count := 5, missed_tx_count := 0 }).1.missed_tx_count = 1
      ∧ ¬ ((transmission_cycle 128 true false 7
              { State.init with tx_count := 5, missed_tx_count := 0 }).1.missed_tx_count
            = incr32 ({ State.init with tx_count := 5, missed_tx_count := 0 } : State).missed_tx_count
          ↔ (true = false ∧
              ({ State.init with tx_count := 5, missed_tx_count := 0 } : State).tx_count > 0)) := by
  decide

/-- C2, amended: in a transmission cycle `missed_tx_count` is incremented
(the `uint32_t` increment) if and only if the send condition fails, that is
`node_is_reachable` is false or `get_root_ipaddr` fails, and `tx_count > 0`
when the cycle is evaluated; otherwise it is unchanged. In particular with
`tx_count = 0` and the node unreachable it keeps its value, and with
`tx_count = 5`, `missed_tx_count = 0` and the node unreachable it becomes `1`. -/
theorem missed_count_incremented_iff (cs : Nat) (reachable rootKnown : Bool) (rand : Nat)
    (s : State) :
    ((transmission_cycle cs reachable rootKnown rand s).1.missed_tx_count
          = incr32 s.missed_tx_count
        ↔ ((reachable = false ∨ rootKnown = false) ∧ s.tx_count > 0))
      ∧ (¬ ((reachable = false ∨ rootKnown = false) ∧ s.tx_count > 0) →
          (transmission_cycle cs reachable rootKnown rand s).1.missed_tx_count
            = s.missed_tx_count)
      ∧ (s.tx_count = 0 →
          (transmission_cycle cs false rootKnown rand s).1.missed_tx_count = s.missed_tx_count)
      ∧ (s.tx_count = 5 → s.missed_tx_count = 0 →
          (transmission_cycle cs false rootKnown rand s).1.missed_tx_count = 1) := by
  have hne := incr32_ne s.missed_tx_count
  refine ⟨?_, ?_, ?_, ?_⟩
  · by_cases h0 : s.tx_count > 0 <;>
      cases reachable <;> cases rootKnown <;>
      simp [transmission_cycle, Ne.symm hne, h0]
  · by_cases h0 : s.tx_count > 0 <;>
      cases reachable <;> cases rootKnown <;>
      simp [transmission_cycle, h0]
  · intro h
    simp [transmission_cycle, h]
  · intro h5 h0
    simp [transmission_cycle, h5, h0, incr32, UINT32_MOD]

/-- Witness for the amended C2: the two scenarios of the specification. -/
theorem missed_count_incremented_iff_witness :
    (transmission_cycle 128 false false 7 State.init).1.missed_tx_count = 0
      ∧ (transmission_cycle 128 false true 7
          { State.init with tx_count := 5 }).1.missed_tx_count = 1 :=
  ⟨(missed_count_incremented_iff 128 false false 7 State.init).2.2.1 rfl,
   (missed_count_incremented_iff 128 false true 7 { State.init with tx_count := 5 }).2.2.2
      rfl rfl⟩

/-! ## Timer jitter -/

/-- C5: for every value of `random_rand()` and every positive `CLOCK_SECOND`
the interval the periodic timer is re-armed with at the end of a cycle lies in
`[SEND_INTERVAL - CLOCK_SECOND, SEND_INTERVAL + CLOCK_SECOND)`, whatever the
routing answers and the state. -/
theorem rearm_interval_window (cs : Nat) (hcs : 0 < cs) (reachable rootKnown : Bool)
    (rand : Nat) (s : State) :
    (transmission_cycle cs reachable rootKnown rand s).1.periodic_timer.interval
        = SEND_INTERVAL cs - cs + rand % (2 * cs)
      ∧ SEND_INTERVAL cs - cs
          ≤ (transmission_cycle cs reachable rootKnown rand s).1.periodic_timer.interval
      ∧ (transmission_cycle cs reachable rootKnown rand s).1.periodic_timer.interval
          < SEND_INTERVAL cs + cs := by
  have hlt : rand % (2 * cs) < 2 * cs := Nat.mod_lt _ (by omega)
  have hval : (transmission_cycle cs reachable rootKnown rand s).1.periodic_timer.interval
      = SEND_INTERVAL cs - cs + rand % (2 * cs) := by
    cases reachable <;> cases rootKnown <;>
      simp [transmission_cycle, etimer_set, rearm_interval]
  rw [hval]
  unfold SEND_INTERVAL
  omega

/-- Witness for C5 at `CLOCK_SECOND = 128` and `random_rand() = 65535`. -/
theorem rearm_interval_window_witness :
    (0 : Nat) < 128
      ∧ (transmission_cycle 128 true true 65535 State.init).1.periodic_timer.interval = 767
      ∧ SEND_INTERVAL 128 - 128 ≤ 767 ∧ 767 < SEND_INTERVAL 128 + 128 := by
  have h := rearm_interval_window 128 (by decide) true true 65535 State.init
  have hv : (transmission_cycle 128 true true 65535 State.init).1.periodic_timer.interval
      = 767 := by decide
  rw [hv] at h
  exact ⟨by decide, hv, h.2.1, h.2.2⟩

/-! ## Counters under all operations -/

/-- C9, as stated, fails: from `tx_count = 4294967295` a sending cycle
leaves `tx_count = 0`, which is below the value before. -/
theorem counters_monotone_counterexample :
    ((Op.cycle 128 true true 7).run { State.init with tx_count := 4294967295 }).tx_count = 0
      ∧ ¬ (({ State.init with tx_count := 4294967295 } : State).tx_count
            ≤ ((Op.cycle 128 true true 7).run
                { State.init with tx_count := 4294967295 }).tx_count) := by
  decide

/-- C9, amended: under every operation (a transmission cycle with any routing
answers, or `udp_rx_callback` with any payload) each counter that is below
`2^32 - 1` before the operation is at least as large after it; a transmission
cycle never changes `rx_count`, and `udp_rx_callback` never changes `tx_count`
or `missed_tx_count`. -/
theorem counters_monotone_below_max (s : State) (op : Op) :
    (s.tx_count < UINT32_MAX → s.tx_count ≤ (op.run s).tx_count)
      ∧ (s.rx_count < UINT32_MAX → s.rx_count ≤ (op.run s).rx_count)
      ∧ (s.missed_tx_count < UINT32_MAX → s.missed_tx_count ≤ (op.run s).missed_tx_count)
      ∧ (∀ cs reachable rootKnown rand,
          ((Op.cycle cs reachable rootKnown rand).run s).rx_count = s.rx_count)
      ∧ (∀ data, ((Op.receive data).run s).tx_count = s.tx_count
          ∧ ((Op.receive data).run s).missed_tx_count = s.missed_tx_count) := by
  refine ⟨?_, ?_, ?_, ?_, ?_⟩
  · intro h
    cases op with
    | cycle cs reachable rootKnown rand =>
      cases reachable <;> cases rootKnown <;>
        simp [Op.run, transmission_cycle, incr32_of_lt _ h]
    | receive data => simp [Op.run, udp_rx_callback]
  · intro h
    cases op with
    | cycle cs reachable rootKnown rand =>
      cases reachable <;> cases rootKnown <;> simp [Op.run, transmission_cycle]
    | receive data => simp [Op.run, udp_rx_callback, incr32_of_lt _ h]
  · intro h
    cases op with
    | cycle cs reachable rootKnown rand =>
      cases reachable <;> cases rootKnown <;>
        simp [Op.run, transmission_cycle, incr32_of_lt _ h] <;>
        split <;> omega
    | receive data => simp [Op.run, udp_rx_callback]
  · intro cs reachable rootKnown rand
    cases reachable <;> cases rootKnown <;> simp [Op.run, transmission_cycle]
  · intro data
    simp [Op.run, udp_rx_callback]

/-- Witness for the amended C9: a missed cycle from `tx_count = 5`. -/
theorem counters_monotone_below_max_witness :
    ({ State.init with tx_count := 5 } : State).missed_tx_count
      ≤ ((Op.cycle 128 false true 7).run { State.init with tx_count := 5 }).missed_tx_count :=
  (counters_monotone_below_max { State.init with tx_count := 5 }
    (Op.cycle 128 false true 7)).2.2.1 (by decide)

/-! ## Sampling protothreads -/

theorem read_temp_full_cycle (calibrate : Int → Int) (cs : Nat) (raw : Int) (s : State)
    (h : s.pt_temp_thread = LC.start) :
    read_temp calibrate cs true raw s =
      ({ s with display_temp := calibrate raw, et_temp_timer := etimer_set (cs * 5),
                pt_temp_thread := LC.waitCooldown },
        [Event.activate, Event.readTemp, Event.printTemp (calibrate raw), Event.deactivate,
          Event.setTempTimer (cs * 5)],
        PtResult.waiting) := by
  simp [read_temp, h]

theorem read_temp_after_cooldown (calibrate : Int → Int) (cs : Nat) (raw : Int) (s : State)
    (h : s.pt_temp_thread = LC.waitCooldown) (hexp : s.et_temp_timer.expired = true) :
    (read_temp calibrate cs true raw s).2.1 =
      [Event.activate, Event.readTemp, Event.printTemp (calibrate raw), Event.deactivate,
        Event.setTempTimer (cs * 5)] := by
  simp [read_temp, h, hexp, etimer_expired]

/-- C10: resuming a sampler in its cooldown is a no-op. For `read_temp` and
for `read_humidity`, when the protothread is suspended at its cooldown wait
and its timer has not expired, one more resumption returns `PT_WAITING` with
the whole state unchanged (same suspension point, same timer, same
`display_temp` and `display_humidity`) and with no event at all: no sensor
activation, read or deactivation, no `etimer_set`, no diagnostic line. -/
theorem sampler_cooldown_noop (calibrate : Int → Int) (cs : Nat) (ready : Bool) (raw : Int)
    (s : State) :
    (s.pt_temp_thread = LC.waitCooldown → etimer_expired s.et_temp_timer = false →
        read_temp calibrate cs ready raw s = (s, [], PtResult.waiting))
      ∧ (s.pt_humidity_thread = LC.waitCooldown → etimer_expired s.et_humid_timer = false →
        read_humidity calibrate cs ready raw s = (s, [], PtResult.waiting)) := by
  constructor
  · intro hlc hexp
    simp [read_temp, hlc, hexp]
  · intro hlc hexp
    simp [read_humidity, hlc, hexp]

/-- Witness for C10: both samplers complete a reading cycle from the initial
state and are then resumed once more before their timers expire. -/
theorem sampler_cooldown_noop_witness :
    read_temp (fun r => r / 100 - 39) 128 true 4000
        (read_temp (fun r => r / 100 - 39) 128 true 4000 State.init).1
      = ((read_temp (fun r => r / 100 - 39) 128 true 4000 State.init).1, [], PtResult.waiting)
    ∧ read_humidity (fun r => r / 30) 128 true 700
        (read_humidity (fun r => r / 30) 128 true 700 State.init).1
      = ((read_humidity (fun r => r / 30) 128 true 700 State.init).1, [], PtResult.waiting) :=
  ⟨(sampler_cooldown_noop (fun r => r / 100 - 39) 128 true 4000
      (read_temp (fun r => r / 100 - 39) 128 true 4000 State.init).1).1 rfl rfl,
   (sampler_cooldown_noop (fun r => r / 30) 128 true 700
      (read_humidity (fun r => r / 30) 128 true 700 State.init).1).2 rfl rfl⟩

/-! ## Statistics summary every tenth send -/

theorem statsCount_send (cs rand : Nat) (s : State) :
    statsCount (transmission_cycle cs true true rand s).2
      = if s.tx_count % 10 = 0 then 1 else 0 := by
  rw [transmission_cycle_send]
  by_cases h : s.tx_count % 10 = 0 <;>
    simp [statsCount, h, Event.isStats, List.countP_cons]

theorem cyclesWithStats_eq_emitCount (cs : Nat) (rands : List Nat) :
    ∀ s : State,
      cyclesWithStats (sending_cycles cs rands s).2 = emitCount rands.length s.tx_count := by
  induction rands with
  | nil => intro s; rfl
  | cons r rs ih =>
    intro s
    have hstep := statsCount_send cs r s
    have htx : (transmission_cycle cs true true r s).1.tx_count = incr32 s.tx_count := by
      rw [transmission_cycle_send]
    have htail := ih (transmission_cycle cs true true r s).1
    rw [htx] at htail
    simp only [sending_cycles, List.length_cons, emitCount]
    unfold cyclesWithStats at htail ⊢
    rw [List.countP_cons, htail, hstep]
    by_cases h : s.tx_count % 10 = 0
    · simp [h]
      omega
    · simp [h]

theorem emitCount_ten_no_wrap (t : Nat) (h : t + 10 ≤ 2 ^ 32) : emitCount 10 t = 1 := by
  have e1 : incr32 t = t + 1 := incr32_of_lt _ (by omega)
  have e2 : incr32 (t + 1) = t + 2 := incr32_of_lt _ (by omega)
  have e3 : incr32 (t + 2) = t + 3 := incr32_of_lt _ (by omega)
  have e4 : incr32 (t + 3) = t + 4 := incr32_of_lt _ (by omega)
  have e5 : incr32 (t + 4) = t + 5 := incr32_of_lt _ (by omega)
  have e6 : incr32 (t + 5) = t + 6 := incr32_of_lt _ (by omega)
  have e7 : incr32 (t + 6) = t + 7 := incr32_of_lt _ (by omega)
  have e8 : incr32 (t + 7) = t + 8 := incr32_of_lt _ (by omega)
  have e9 : incr32 (t + 8) = t + 9 := incr32_of_lt _ (by omega)
  simp only [emitCount, e1, e2, e3, e4, e5, e6, e7, e8, e9]
  have hr : t % 10 < 10 := Nat.mod_lt _ (by decide)
  interval_cases hv : t % 10 <;> simp [Nat.add_mod, hv]

theorem emitCount_ten (t : Nat) (h : t < 2 ^ 32) :
    emitCount 10 t = if 4294967287 ≤ t ∧ t ≤ 4294967290 then 2 else 1 := by
  by_cases hw : t + 10 ≤ 2 ^ 32
  · rw [emitCount_ten_no_wrap t hw, if_neg (by omega)]
  · have hlo : 4294967287 ≤ t := by omega
    have hhi : t < 4294967296 := by omega
    interval_cases t <;> decide

/-- C8, as stated, fails: ten consecutive sending cycles that start from
`tx_count = 4294967290` emit the statistics summary in two cycles (at
`4294967290` and, after the counter wraps, at `0`). -/
theorem stats_ten_sends_counterexample :
    cyclesWithStats (sending_cycles 128 [0, 1, 2, 3, 4, 5, 6, 7, 8, 9]
        { State.init with tx_count := 4294967290 }).2 = 2 := by
  decide

/-- C8, amended: for every starting `uint32_t` value of `tx_count` other than
the four values `4294967287 .. 4294967290`, a run of ten consecutive sending
cycles emits the statistics summary in exactly one cycle (from those four
values it emits it in two, the counter passing `4294967290` and wrapping to
`0` inside the run); within a sending cycle the summary is emitted exactly
when `tx_count % 10 == 0` before the increment, and then once. -/
theorem stats_once_per_ten_sends (cs : Nat) (rands : List Nat) (s : State)
    (hlen : rands.length = 10) (h32 : s.tx_count < 2 ^ 32) :
    cyclesWithStats (sending_cycles cs rands s).2
        = (if 4294967287 ≤ s.tx_count ∧ s.tx_count ≤ 4294967290 then 2 else 1)
      ∧ (∀ rand (st : State), statsCount (transmission_cycle cs true true rand st).2
          = if st.tx_count % 10 = 0 then 1 else 0) := by
  refine ⟨?_, fun rand st => statsCount_send cs rand st⟩
  rw [cyclesWithStats_eq_emitCount, hlen]
  exact emitCount_ten _ h32

/-- Witness for the amended C8: ten sending cycles from `tx_count = 3`. -/
theorem stats_once_per_ten_sends_witness :
    cyclesWithStats (sending_cycles 128 [0, 1, 2, 3, 4, 5, 6, 7, 8, 9]
        { State.init with tx_count := 3 }).2 = 1 :=
  (stats_once_per_ten_sends 128 [0, 1, 2, 3, 4, 5, 6, 7, 8, 9]
    { State.init with tx_count := 3 } rfl (by decide)).1

/-! ## Payload encoding -/

theorem wrapInt32_of_range (z : Int) (hlo : INT_MIN ≤ z) (hhi : z ≤ INT_MAX) :
    wrapInt32 z = z := by
  unfold INT_MIN at hlo
  unfold INT_MAX at hhi
  unfold wrapInt32 toInt32
  split <;> omega

/-- C3, as stated, fails: the humidities `99` and `-1` both have magnitude
below `100`, and the pairs `(0, 99)` and `(1, -1)` get the same payload `99`,
so no decoder recovers every pair with `abs h < 100`. -/
theorem payload_collision_counterexample :
    Int.natAbs 99 < 100 ∧ Int.natAbs (-1) < 100
      ∧ data_to_send 0 99 = 99 ∧ data_to_send 1 (-1) = 99
      ∧ ¬ ∃ decode : Int → Int × Int,
          ∀ t h : Int, Int.natAbs h < 100 → decode (data_to_send t h) = (t, h) := by
  refine ⟨by decide, by decide, by decide, by decide, ?_⟩
  rintro ⟨decode, hdec⟩
  have h1 := hdec 0 99 (by decide)
  have h2 := hdec 1 (-1) (by decide)
  have e1 : data_to_send 0 99 = 99 := by decide
  have e2 : data_to_send 1 (-1) = 99 := by decide
  rw [e1] at h1
  rw [e2] at h2
  rw [h1] at h2
  exact absurd h2 (by decide)

/-- C3, amended: for every temperature `t` and humidity `h` with
`0 ≤ h < 100` whose combination `t * 100 + h` fits in an `int`, the payload
is `t * 100 + h` and the pair is recovered from it by floor division and
remainder: `(payload / 100, payload % 100) = (t, h)`. -/
theorem payload_roundtrip (t h : Int) (h0 : 0 ≤ h) (h100 : h < 100)
    (hlo : INT_MIN ≤ t * 100 + h) (hhi : t * 100 + h ≤ INT_MAX) :
    data_to_send t h = t * 100 + h
      ∧ (data_to_send t h / 100, data_to_send t h % 100) = (t, h) := by
  have hw : data_to_send t h = t * 100 + h := wrapInt32_of_range _ hlo hhi
  refine ⟨hw, ?_⟩
  rw [hw]
  have hq : (t * 100 + h) / 100 = t := by omega
  have hr : (t * 100 + h) % 100 = h := by omega
  rw [hq, hr]

/-- Witness for the amended C3: temperature `0` and humidity `22` give the
payload `22`, which decodes to `(0, 22)`. -/
theorem payload_roundtrip_witness :
    data_to_send 0 22 = 0 * 100 + 22
      ∧ (data_to_send 0 22 / 100, data_to_send 0 22 % 100) = ((0 : Int), (22 : Int)) :=
  payload_roundtrip 0 22 (by decide) (by decide) (by decide) (by decide)

/-! ## Reply decoder -/

theorem rx_loop_eq (data : List (Fin 256)) :
    ∀ i acc : Nat, acc < 2 ^ (8 * i) → acc + 2 ^ (8 * i) * leValue data < 2 ^ 32 →
      rx_loop data i acc = acc + 2 ^ (8 * i) * leValue data := by
  induction data with
  | nil => intro i acc _ _; simp [rx_loop, leValue]
  | cons b rest ih =>
    intro i acc hacc htot
    have hP : 2 ^ (8 * (i + 1)) = 2 ^ (8 * i) * 256 := by
      rw [Nat.mul_add, Nat.pow_add]
    have hb : b.val < 256 := b.isLt
    simp only [leValue] at htot ⊢
    have hexp : 2 ^ (8 * i) * (b.val + 256 * leValue rest)
        = 2 ^ (8 * i) * b.val + 2 ^ (8 * i) * 256 * leValue rest := by ring
    have hshift : shl32 b.val (8 * i) = 2 ^ (8 * i) * b.val := by
      unfold shl32
      rw [Nat.shiftLeft_eq, Nat.mul_comm]
      apply Nat.mod_eq_of_lt
      omega
    have hor : acc ||| shl32 b.val (8 * i) = 2 ^ (8 * i) * b.val + acc := by
      rw [hshift, Nat.lor_comm]
      exact (Nat.mul_add_lt_is_or hacc b.val).symm
    have hnew : 2 ^ (8 * i) * b.val + acc < 2 ^ (8 * (i + 1)) := by
      rw [hP]
      have h1 : 2 ^ (8 * i) * (b.val + 1) ≤ 2 ^ (8 * i) * 256 :=
        Nat.mul_le_mul_left _ (by omega)
      have h2 : 2 ^ (8 * i) * (b.val + 1) = 2 ^ (8 * i) * b.val + 2 ^ (8 * i) := by ring
      omega
    simp only [rx_loop]
    rw [hor, ih (i + 1) _ hnew (by rw [hP]; omega), hP]
    omega

theorem shifts_defined_of_small (data : List (Fin 256)) :
    ∀ i : Nat, i + data.length ≤ 4 → 2 ^ (8 * i) * leValue data < 2 ^ 31 →
      shifts_defined data i = true := by
  induction data with
  | nil => intro i _ _; rfl
  | cons b rest ih =>
    intro i hlen hval
    have hP : 2 ^ (8 * (i + 1)) = 2 ^ (8 * i) * 256 := by
      rw [Nat.mul_add, Nat.pow_add]
    simp only [List.length_cons] at hlen
    simp only [leValue] at hval
    have hexp : 2 ^ (8 * i) * (b.val + 256 * leValue rest)
        = b.val * 2 ^ (8 * i) + 2 ^ (8 * i) * 256 * leValue rest := by ring
    have hrest := ih (i + 1) (by omega) (by rw [hP]; omega)
    simp only [shifts_defined, hrest, Bool.and_true, Bool.and_eq_true, decide_eq_true_eq]
    constructor <;> omega

/-- C4, as stated, fails: for the four-byte payload `00 00 00 80` the loop
leaves `received_data = -2147483648`, a negative number, while the
little-endian value of the payload is `2147483648`, which exceeds every `int`. -/
theorem received_data_negative_counterexample :
    received_data [0, 0, 0, 128] = -2147483648
      ∧ leValue [0, 0, 0, 128] = 2147483648
      ∧ INT_MAX < (leValue [0, 0, 0, 128] : Int)
      ∧ ¬ (0 ≤ received_data [0, 0, 0, 128]
            ∧ received_data [0, 0, 0, 128] = (leValue [0, 0, 0, 128] : Int)) := by
  decide

/-- C4, amended: for every payload of at most four bytes whose little-endian
value is below `2^31` (the fourth byte, if present, is below `128`), the value
`udp_rx_callback` computes in `received_data` is non-negative and equals the
little-endian value of the payload, the sum of `data[i] * 256^i`; it is the
value the callback logs, and every shift of the loop is one C defines. -/
theorem received_data_little_endian (data : List (Fin 256)) (s : State)
    (hlen : data.length ≤ 4) (hval : leValue data < 2 ^ 31) :
    received_data data = (leValue data : Int)
      ∧ 0 ≤ received_data data
      ∧ (udp_rx_callback data s).2 = [Event.logReceived (leValue data : Int)]
      ∧ shifts_defined data 0 = true := by
  have hloop : rx_loop data 0 0 = leValue data := by
    have h := rx_loop_eq data 0 0 (by decide) (by simp; omega)
    simpa using h
  have hrd : received_data data = (leValue data : Int) := by
    unfold received_data toInt32
    rw [hloop, if_pos hval]
  refine ⟨hrd, ?_, ?_, ?_⟩
  · rw [hrd]
    exact Int.ofNat_nonneg _
  · simp [udp_rx_callback, hrd]
  · exact shifts_defined_of_small data 0 (by omega) (by simp; omega)

/-- Witness for the amended C4: the two-byte payload `39 30` decodes to `12345`. -/
theorem received_data_little_endian_witness :
    received_data [0x39, 0x30] = ((12345 : Nat) : Int) ∧ 0 ≤ received_data [0x39, 0x30] :=
  ⟨(received_data_little_endian [0x39, 0x30] State.init (by decide) (by decide)).1,
   (received_data_little_endian [0x39, 0x30] State.init (by decide) (by decide)).2.1⟩

/-! ## Calibration: the specification's formulas as integer divisions -/

theorem constants_correctly_rounded :
    c_39_60.mag = nearestDouble 3960 100 ∧ c_0_01.mag = nearestDouble 1 100
      ∧ c_2_0468.mag = nearestDouble 20468 10000 ∧ c_0_0367.mag = nearestDouble 367 10000
      ∧ c_1_5955.mag = nearestDouble 15955 10000
      ∧ c_pow_10_m6.mag = nearestDouble 1 1000000 := by
  decide!

theorem calibrated_temp_examples :
    calibrated_temp 4000 = 0 ∧ calibrated_temp 6500 = 25 ∧ calibrated_temp (-100) = -40
      ∧ calibrated_temp 16383 = 124 ∧ calibrated_temp 0 = -39 := by
  decide!

theorem calibrated_humidity_examples :
    calibrated_humidity 700 = 22 ∧ calibrated_humidity 0 = -2
      ∧ calibrated_humidity 4095 = 121 := by
  decide!

end SensorNode
